import Mathlib

/-!
# Verification of the mood-tracker detection engine

Shallow embedding of the landmark-to-emotion inference engine, the fallback
simulator, the detection scheduling guard, the model-loading timeout logic,
the persistence controller, and the save action, translated from
`frontend/src/components/MoodTracker.js` and the backend mood controller.

JavaScript numbers are modelled as elements of a linear ordered field
(instantiated at `ℚ` for the exactly-rational parts and at `ℝ` where the
source computes square roots and arctangents).  `Math.random()` draws and the
per-label jitter are explicit parameters ranging over the intervals the
source draws them from.
-/

namespace MoodTracker

/-- The fixed emotion label set, in the insertion order of the `emotions`
object literal in the source (`neutral, happy, sad, angry, surprised`). -/
inductive Label where
  | neutral
  | happy
  | sad
  | angry
  | surprised
deriving DecidableEq, Repr

/-- Position of a label in the canonical (object-insertion) order. -/
def labelIdx : Label → ℕ
  | .neutral => 0
  | .happy => 1
  | .sad => 2
  | .angry => 3
  | .surprised => 4

/-- An emotion-score record: one number per label, mirroring the JS
`emotions` object. -/
structure Emotions (α : Type) where
  neutral : α
  happy : α
  sad : α
  angry : α
  surprised : α
deriving DecidableEq, Repr

/-- Field lookup `emotions[label]`. -/
def Emotions.get {α : Type} (e : Emotions α) : Label → α
  | .neutral => e.neutral
  | .happy => e.happy
  | .sad => e.sad
  | .angry => e.angry
  | .surprised => e.surprised

/-- `Object.values(emotions).reduce((sum, val) => sum + val, 0)`. -/
def Emotions.total {α : Type} [Add α] [Zero α] (e : Emotions α) : α :=
  e.neutral + e.happy + e.sad + e.angry + e.surprised

/-- The normalization loop: every value divided by the total
(source lines 634-638 and 158-162). -/
def normalizeEmotions {α : Type} [LinearOrderedField α] (e : Emotions α) : Emotions α :=
  let total := e.total
  { neutral := e.neutral / total
    happy := e.happy / total
    sad := e.sad / total
    angry := e.angry / total
    surprised := e.surprised / total }

/-- The noise loop (source lines 627-632): each value gets its own
`Math.random() * 0.05 - 0.025` perturbation and is then clamped to `≥ 0`. -/
def applyJitter {α : Type} [LinearOrderedField α] (e : Emotions α) (jitter : Label → α) :
    Emotions α :=
  { neutral := max 0 (e.neutral + jitter .neutral)
    happy := max 0 (e.happy + jitter .happy)
    sad := max 0 (e.sad + jitter .sad)
    angry := max 0 (e.angry + jitter .angry)
    surprised := max 0 (e.surprised + jitter .surprised) }

/-- One step of `Object.keys(emotions).reduce((a, b) => emotions[a] > emotions[b] ? a : b)`:
keep the incumbent `a` only when its score is strictly greater. -/
def dominantStep {α : Type} [LinearOrder α] (e : Emotions α) (a b : Label) : Label :=
  if e.get b < e.get a then a else b

/-- The dominant-mood selection used in both the AI path (source lines 269-271)
and the fallback path (lines 201-203): a left fold of `dominantStep` over the
labels in insertion order, starting from `neutral`. -/
def dominantEmotion {α : Type} [LinearOrder α] (e : Emotions α) : Label :=
  dominantStep e (dominantStep e (dominantStep e (dominantStep e .neutral .happy) .sad)
    .angry) .surprised

/-- The default emotion distribution declared at the top of
`calculateEmotionsFromLandmarks` (source lines 480-486). -/
def defaultEmotions {α : Type} [LinearOrderedField α] : Emotions α :=
  { neutral := 17/100
    happy := 50/100
    sad := 10/100
    angry := 8/100
    surprised := 15/100 }

/-! ## Per-emotion heuristic scorers (source lines 389-472) -/

/-- `calculateSadnessScore` (source lines 389-410). -/
def calculateSadnessScore {α : Type} [LinearOrderedField α]
    (isMouthTurnedDown : Bool) (mouthCornerDiff mouthRatio : α) : α :=
  let score : α := 0
  let score := if isMouthTurnedDown then score + 2/5 else score
  let score :=
    if 4 < mouthCornerDiff then score + 1/5
    else if 5/2 < mouthCornerDiff then score + 1/10
    else score
  let score := if mouthRatio < 3/2 then score + 3/20 else score
  min (7/10) score

/-- `calculateAngerScore` (source lines 412-429). -/
def calculateAngerScore {α : Type} [LinearOrderedField α]
    (eyebrowLowered eyebrowsAngledInward : Bool) (leftAngle rightAngle : α) : α :=
  let score : α := 0
  let score := if eyebrowLowered then score + 3/10 else score
  let score :=
    if eyebrowsAngledInward then score + 1/4
    else if leftAngle < -15 ∨ 15 < rightAngle then score + 3/20
    else score
  min (3/5) score

/-- `calculateSurpriseScore` (source lines 431-450). -/
def calculateSurpriseScore {α : Type} [LinearOrderedField α]
    (eyebrowRaised eyesWideOpen isMouthOpen : Bool) : α :=
  let score : α := 0
  let score := if eyebrowRaised then score + 2/5 else score
  let score := if eyesWideOpen then score + 3/10 else score
  let score := if isMouthOpen then score + 3/10 else score
  min (9/10) score

/-- `calculateHappinessScore` (source lines 452-472). -/
def calculateHappinessScore {α : Type} [LinearOrderedField α]
    (mouthRatio : α) (isMouthTurnedDown : Bool) : α :=
  let score : α := 0
  let score :=
    if 3 < mouthRatio then score + 4/5
    else if 5/2 < mouthRatio then score + 3/5
    else if 2 < mouthRatio then score + 2/5
    else if 3/2 < mouthRatio then score + 1/5
    else score
  let score := if isMouthTurnedDown then max 0 (score - 1/5) else score
  min (19/20) score

/-- The named geometric measurements computed in the body of
`calculateEmotionsFromLandmarks` (source lines 521-595). -/
structure Features (α : Type) where
  mouthWidth : α
  mouthHeight : α
  mouthCornerDiff : α
  isMouthTurnedDown : Bool
  isMouthOpen : Bool
  mouthRatio : α
  leftEyebrowHeight : α
  rightEyebrowHeight : α
  eyebrowRaised : Bool
  eyebrowLowered : Bool
  leftEyebrowAngle : α
  rightEyebrowAngle : α
  eyebrowsAngledInward : Bool
  leftEyeOpenness : α
  rightEyeOpenness : α
  eyesWideOpen : Bool

/-- The success branch of `calculateEmotionsFromLandmarks` after the metrics
are available (source lines 600-640): the four heuristic scores, the derived
neutral score, the floor/cap assignments, the per-label jitter, and the final
normalization. -/
def scoreFromFeatures {α : Type} [LinearOrderedField α]
    (f : Features α) (jitter : Label → α) : Emotions α :=
  let sadnessScore := calculateSadnessScore f.isMouthTurnedDown f.mouthCornerDiff f.mouthRatio
  let angerScore := calculateAngerScore f.eyebrowLowered f.eyebrowsAngledInward
    f.leftEyebrowAngle f.rightEyebrowAngle
  let surpriseScore := calculateSurpriseScore f.eyebrowRaised f.eyesWideOpen f.isMouthOpen
  let happinessScore := calculateHappinessScore f.mouthRatio f.isMouthTurnedDown
  let neutralScore := 2/5 - (sadnessScore + angerScore + surpriseScore + happinessScore) / 2
  let assigned : Emotions α :=
    { neutral := max (1/20) neutralScore
      happy := min (7/10) happinessScore
      sad := max (1/10) sadnessScore
      angry := max (1/10) angerScore
      surprised := max (1/10) surpriseScore }
  normalizeEmotions (applyJitter assigned jitter)

/-! ## Landmark geometry (source lines 493-595)

Landmark points are modelled as pairs `(x, y)` of reals (`point[0]`,
`point[1]` in the source).  `Math.sqrt` and `Math.atan2` are modelled by
`Real.sqrt` and the quadrant-corrected arctangent. -/

/-- `Math.sqrt(Math.pow(q.x - p.x, 2) + Math.pow(q.y - p.y, 2))`. -/
noncomputable def euclid (p q : ℝ × ℝ) : ℝ :=
  Real.sqrt ((q.1 - p.1) ^ 2 + (q.2 - p.2) ^ 2)

/-- `Math.atan2(y, x)` over the reals (quadrant-corrected arctangent,
ignoring IEEE signed zeros and NaN, which real arithmetic does not have). -/
noncomputable def jsAtan2 (y x : ℝ) : ℝ :=
  if 0 < x then Real.arctan (y / x)
  else if x < 0 then
    (if 0 ≤ y then Real.arctan (y / x) + Real.pi else Real.arctan (y / x) - Real.pi)
  else
    (if 0 < y then Real.pi / 2 else if y < 0 then -Real.pi / 2 else 0)

/-- `landmarks[preferred] || landmarks[fallback]`: an out-of-range index reads
as `undefined` (falsy), so the fallback index is consulted; if that is also
out of range the expression is `undefined`, modelled as `none`. -/
def getPoint (landmarks : List (ℝ × ℝ)) (preferred fallbackIdx : ℕ) : Option (ℝ × ℝ) :=
  (landmarks[preferred]?).orElse fun _ => landmarks[fallbackIdx]?

/-- The metric computation of `calculateEmotionsFromLandmarks`
(source lines 493-595).  A `none` result models the `catch` branch: in the
source, using an unresolved (`undefined`) point throws when its coordinates
are read.  `noseTip`, `leftCheek`, `rightCheek` and `forehead`
(lines 516-519) are resolved but never read, so they cannot throw and are
omitted from the failure conditions. -/
noncomputable def extractFeatures? (landmarks : List (ℝ × ℝ)) : Option (Features ℝ) := do
  let mouthLeft ← getPoint landmarks 61 0
  let mouthRight ← getPoint landmarks 291 1
  let upperLip ← getPoint landmarks 13 2
  let lowerLip ← getPoint landmarks 14 3
  let mouthCenter ← getPoint landmarks 0 4
  let leftEye ← getPoint landmarks 159 5
  let rightEye ← getPoint landmarks 386 6
  let leftEyeTop ← getPoint landmarks 159 7
  let leftEyeBottom ← getPoint landmarks 145 8
  let rightEyeTop ← getPoint landmarks 386 9
  let rightEyeBottom ← getPoint landmarks 374 10
  let leftEyebrowOuter ← getPoint landmarks 65 11
  let leftEyebrowInner ← getPoint landmarks 105 12
  let rightEyebrowOuter ← getPoint landmarks 295 13
  let rightEyebrowInner ← getPoint landmarks 334 14
  let mouthWidth := euclid mouthLeft mouthRight
  let mouthHeight := euclid upperLip lowerLip
  let mouthCornerDiff := |mouthLeft.2 - mouthRight.2|
  let isMouthTurnedDown := decide (mouthCenter.2 < mouthLeft.2) &&
    decide (mouthCenter.2 < mouthRight.2)
  let isMouthOpen := decide (mouthWidth * (3/10) < mouthHeight)
  let mouthRatio := mouthWidth / (if mouthHeight = 0 then 1 else mouthHeight)
  let leftEyebrowHeight := |leftEyebrowOuter.2 - leftEye.2|
  let rightEyebrowHeight := |rightEyebrowOuter.2 - rightEye.2|
  let eyebrowRaised := decide (25 < leftEyebrowHeight) || decide (25 < rightEyebrowHeight)
  let eyebrowLowered := decide (leftEyebrowHeight < 15) || decide (rightEyebrowHeight < 15)
  let leftEyebrowAngle :=
    jsAtan2 (leftEyebrowOuter.2 - leftEyebrowInner.2) (leftEyebrowOuter.1 - leftEyebrowInner.1)
      * (180 / Real.pi)
  let rightEyebrowAngle :=
    jsAtan2 (rightEyebrowInner.2 - rightEyebrowOuter.2) (rightEyebrowInner.1 - rightEyebrowOuter.1)
      * (180 / Real.pi)
  let eyebrowsAngledInward := decide (leftEyebrowAngle < -15) && decide (15 < rightEyebrowAngle)
  let leftEyeOpenness := |leftEyeTop.2 - leftEyeBottom.2|
  let rightEyeOpenness := |rightEyeTop.2 - rightEyeBottom.2|
  let eyesWideOpen := decide (15 < leftEyeOpenness) || decide (15 < rightEyeOpenness)
  pure { mouthWidth := mouthWidth
         mouthHeight := mouthHeight
         mouthCornerDiff := mouthCornerDiff
         isMouthTurnedDown := isMouthTurnedDown
         isMouthOpen := isMouthOpen
         mouthRatio := mouthRatio
         leftEyebrowHeight := leftEyebrowHeight
         rightEyebrowHeight := rightEyebrowHeight
         eyebrowRaised := eyebrowRaised
         eyebrowLowered := eyebrowLowered
         leftEyebrowAngle := leftEyebrowAngle
         rightEyebrowAngle := rightEyebrowAngle
         eyebrowsAngledInward := eyebrowsAngledInward
         leftEyeOpenness := leftEyeOpenness
         rightEyeOpenness := rightEyeOpenness
         eyesWideOpen := eyesWideOpen }

/-- `calculateEmotionsFromLandmarks` (source lines 475-645): a missing
landmark set (`!landmarks`) or one with fewer than 20 points returns the
default distribution; otherwise the metrics are computed under the `try`
and the scored distribution is produced; a failure while computing
the metrics falls into the `catch`, which also returns the default. -/
noncomputable def calculateEmotionsFromLandmarks (landmarks? : Option (List (ℝ × ℝ)))
    (jitter : Label → ℝ) : Emotions ℝ :=
  match landmarks? with
  | none => defaultEmotions
  | some lm =>
    if lm.length < 20 then defaultEmotions
    else
      match extractFeatures? lm with
      | none => defaultEmotions
      | some f => scoreFromFeatures f jitter

/-! ## The fallback simulator (source lines 126-165 and 191-197) -/

/-- The happy-biased profile of `getRandomEmotions` for `cyclePosition < 0.3`
(source lines 129-137); `r l` is the `Math.random()` draw for label `l`. -/
def happyBiasedProfile (r : Label → ℚ) : Emotions ℚ :=
  { neutral := 3/10 + r .neutral * (2/10)
    happy := 4/10 + r .happy * (3/10)
    sad := r .sad * (2/10)
    angry := r .angry * (1/10)
    surprised := r .surprised * (1/10) }

/-- The neutral-biased profile for `0.3 ≤ cyclePosition < 0.6`
(source lines 138-146). -/
def neutralBiasedProfile (r : Label → ℚ) : Emotions ℚ :=
  { neutral := 6/10 + r .neutral * (2/10)
    happy := 1/10 + r .happy * (2/10)
    sad := 1/10 + r .sad * (1/10)
    angry := r .angry * (1/10)
    surprised := r .surprised * (1/10) }

/-- The mixed profile for `0.6 ≤ cyclePosition` (source lines 147-156). -/
def mixedProfile (r : Label → ℚ) : Emotions ℚ :=
  { neutral := 3/10 + r .neutral * (3/10)
    happy := 1/10 + r .happy * (3/10)
    sad := 1/10 + r .sad * (3/10)
    angry := 5/100 + r .angry * (15/100)
    surprised := 5/100 + r .surprised * (15/100) }

/-- `getRandomEmotions` (source lines 126-165): pick the profile by
`cyclePosition`, then normalize. -/
def getRandomEmotions (cyclePosition : ℚ) (r : Label → ℚ) : Emotions ℚ :=
  normalizeEmotions
    (if cyclePosition < 3/10 then happyBiasedProfile r
     else if cyclePosition < 6/10 then neutralBiasedProfile r
     else mixedProfile r)

/-- `handleFallbackDetection`'s emotion computation (source lines 193-197):
`cyclePosition = (time % 30000) / 30000`. -/
def fallbackEmotions (nowMillis : ℕ) (r : Label → ℚ) : Emotions ℚ :=
  getRandomEmotions (((nowMillis % 30000 : ℕ) : ℚ) / 30000) r

/-! ## The detection tick guard (source lines 168-238) -/

/-- The video-element conditions read by the guard at the top of
`runDetection` (source lines 169-172). -/
structure VideoState where
  hasVideo : Bool
  isVideoReady : Bool
  paused : Bool
  ended : Bool
  readyState : ℕ
deriving DecidableEq, Repr

/-- The guard `!videoRef.current || !isVideoReady || paused || ended ||
readyState < 2` passes when none of the disjuncts holds. -/
def tickGuardPasses (v : VideoState) : Bool :=
  v.hasVideo && v.isVideoReady && !v.paused && !v.ended && decide (2 ≤ v.readyState)

/-- Scheduler-visible state: the `isDetecting` flag plus a ghost counter of
detection cycles currently in flight. -/
structure SchedulerState where
  isDetecting : Bool
  inFlightCycles : ℕ
deriving DecidableEq, Repr

/-- The effect of one `runDetection` tick on the scheduler state
(source lines 168-238): if the video guard fails the tick is a no-op;
otherwise `setIsDetecting(true)` runs (line 237) and a detection cycle is
launched.  No condition on `isDetecting` is consulted anywhere in the
function. -/
def runDetectionTick (v : VideoState) (s : SchedulerState) : SchedulerState :=
  if !(tickGuardPasses v) then s
  else { isDetecting := true, inFlightCycles := s.inFlightCycles + 1 }

/-- A ready, playing video element (metadata loaded, `readyState` 4). -/
def readyVideo : VideoState :=
  { hasVideo := true, isVideoReady := true, paused := false, ended := false, readyState := 4 }

/-! ## Script loading with the intended 10-second timeout
(source lines 65-80) -/

/-- How a `loadScript` promise can end up. -/
inductive LoadOutcome where
  | resolved
  | rejected
  | pending
deriving DecidableEq, Repr

/-- Line 69 assigns `script.onload = () => resolve()` when the element is
created, before the timer of line 74 is installed, so by the time the timer
callback runs the `onload` property always holds a function. -/
def onloadAssigned : Bool := true

/-- The timer callback (lines 74-78) rejects only when `!script.onload`
evaluates to true, i.e. when the `onload` property is falsy. -/
def timeoutRejects : Bool := !onloadAssigned

/-- Settlement of one `loadScript` promise given the (optional) times at
which the browser fires `onload` and `onerror`, together with the 10000 ms
timer: the promise settles on the earliest settling event; the timer is a
settling event only if its guard would actually reject. -/
def loadScriptOutcome (loadEvent errorEvent : Option ℕ) : LoadOutcome :=
  let timerEvent : Option ℕ := if timeoutRejects then some 10000 else none
  match loadEvent, errorEvent, timerEvent with
  | none, none, none => .pending
  | some _, none, none => .resolved
  | none, some _, none => .rejected
  | none, none, some _ => .rejected
  | some tl, some te, none => if tl ≤ te then .resolved else .rejected
  | some tl, none, some tt => if tl ≤ tt then .resolved else .rejected
  | none, some te, some tt => if te ≤ tt then .rejected else .rejected
  | some tl, some te, some tt =>
    if tl ≤ te ∧ tl ≤ tt then .resolved else .rejected

/-- Mode selection of a detection cycle (source line 234):
`const useAIMode = faceModel && handModel`. -/
def useAIMode (faceModelLoaded handModelLoaded : Bool) : Bool :=
  faceModelLoaded && handModelLoaded

/-! ## Backend mood controller (`addMoodLog`, `getMoodHistory`) -/

/-- A stored mood record: server-assigned id, payload mood, timestamp. -/
structure MoodRecord where
  rid : ℕ
  mood : String
  timestamp : ℕ
deriving DecidableEq, Repr

/-- Newest-first comparison used by `.sort({ timestamp: -1 })`. -/
def tsDesc (a b : MoodRecord) : Prop := b.timestamp ≤ a.timestamp

instance : DecidableRel tsDesc := fun a b => Nat.decLe b.timestamp a.timestamp

instance : IsTotal MoodRecord tsDesc :=
  ⟨fun a b => (Nat.le_total b.timestamp a.timestamp).elim Or.inl Or.inr⟩

instance : IsTrans MoodRecord tsDesc :=
  ⟨fun _ _ _ hab hbc => le_trans hbc hab⟩

/-- `addMoodLog` (controller lines 4-24): builds the new record with
`timestamp: timestamp || Date.now()` (a missing or zero — falsy — client
timestamp is replaced by the current time), stores it, and answers
status 200 with the stored record. -/
def addMoodLog (store : List MoodRecord) (mood : String) (ts? : Option ℕ) (now : ℕ) :
    ℕ × MoodRecord × List MoodRecord :=
  let t := match ts? with
    | some t => if t = 0 then now else t
    | none => now
  let savedRecord : MoodRecord := { rid := store.length, mood := mood, timestamp := t }
  (200, savedRecord, store ++ [savedRecord])

/-- `getMoodHistory` (controller lines 27-36):
`MoodLog.find().sort({ timestamp: -1 }).limit(20)`. -/
def getMoodHistory (store : List MoodRecord) : List MoodRecord :=
  (List.insertionSort tsDesc store).take 20

/-! ## The save action (source lines 709-747) -/

/-- The component state read by `handleSaveMood`. -/
structure MoodFormState where
  mood : String
  notes : String
  historyLen : ℕ
deriving DecidableEq, Repr

/-- The body of the `POST /api/moods/log` request the component issues. -/
structure SaveRequest where
  mood : String
  notes : String
  timestamp : String
deriving DecidableEq, Repr

/-- `handleSaveMood` (source lines 709-727): `if (!mood) return;` — with an
empty mood the function returns before building `moodData` or calling
`fetch`; otherwise it issues the POST request.  The returned state is the
component state as left by the synchronous call (history and notes are only
touched later, in the response handler). -/
def handleSaveMood (s : MoodFormState) (nowIso : String) :
    MoodFormState × Option SaveRequest :=
  if s.mood = "" then (s, none)
  else (s, some { mood := s.mood, notes := s.notes, timestamp := nowIso })

/-! ## Shared lemmas -/

/-- Normalizing a componentwise-nonnegative record with positive total yields
a nonnegative record of total one. -/
lemma normalizeEmotions_props {α : Type} [LinearOrderedField α] (e : Emotions α)
    (h0 : ∀ l, 0 ≤ e.get l) (hpos : 0 < e.total) :
    (∀ l, 0 ≤ (normalizeEmotions e).get l) ∧ (normalizeEmotions e).total = 1 := by
  constructor
  · intro l
    cases l
    · exact div_nonneg (h0 .neutral) hpos.le
    · exact div_nonneg (h0 .happy) hpos.le
    · exact div_nonneg (h0 .sad) hpos.le
    · exact div_nonneg (h0 .angry) hpos.le
    · exact div_nonneg (h0 .surprised) hpos.le
  · show e.neutral / e.total + e.happy / e.total + e.sad / e.total + e.angry / e.total +
      e.surprised / e.total = 1
    rw [div_add_div_same, div_add_div_same, div_add_div_same, div_add_div_same]
    exact div_self hpos.ne'

/-- After jitter bounded below by `-1/40` and clamping, a record whose `sad`
component was at least `1/10` normalizes to a valid distribution. -/
lemma jittered_props {α : Type} [LinearOrderedField α] (e : Emotions α) (j : Label → α)
    (hj : -(1/40) ≤ j .sad) (hsad : 1/10 ≤ e.sad) :
    (∀ l, 0 ≤ (normalizeEmotions (applyJitter e j)).get l) ∧
    (normalizeEmotions (applyJitter e j)).total = 1 := by
  have h0 : ∀ l, 0 ≤ (applyJitter e j).get l := fun l => by
    cases l <;> exact le_max_left 0 _
  have hsadLB : (3 : α)/40 ≤ (applyJitter e j).sad := by
    have h1 : (3 : α)/40 ≤ e.sad + j .sad := by linarith
    exact h1.trans (le_max_right 0 _)
  have hn : (0 : α) ≤ (applyJitter e j).neutral := h0 .neutral
  have hh : (0 : α) ≤ (applyJitter e j).happy := h0 .happy
  have ha : (0 : α) ≤ (applyJitter e j).angry := h0 .angry
  have hs : (0 : α) ≤ (applyJitter e j).surprised := h0 .surprised
  have hpos : 0 < (applyJitter e j).total := by
    have h340 : (0 : α) < 3/40 := by norm_num
    simp only [Emotions.total]
    linarith
  exact normalizeEmotions_props _ h0 hpos

/-- The scored distribution is valid for every feature vector, because the
`sad` component is floored at `0.1` before jitter. -/
lemma scoreFromFeatures_props {α : Type} [LinearOrderedField α]
    (f : Features α) (jitter : Label → α) (hj : -(1/40) ≤ jitter .sad) :
    (∀ l, 0 ≤ (scoreFromFeatures f jitter).get l) ∧
    (scoreFromFeatures f jitter).total = 1 :=
  jittered_props _ jitter hj (le_max_left _ _)

/-- A landmark index with an in-range fallback always resolves. -/
lemma getPoint_isSome (lm : List (ℝ × ℝ)) (p fb : ℕ) (h : fb < lm.length) :
    ∃ pt, getPoint lm p fb = some pt := by
  cases hp : lm[p]? with
  | some v => exact ⟨v, by simp [getPoint, hp, Option.orElse]⟩
  | none =>
    exact ⟨lm[fb], by simp [getPoint, hp, Option.orElse, List.getElem?_eq_getElem h]⟩

/-- For landmark sets of length at least 20 every consulted point resolves
(all fallback indices are at most 14), so the metric extraction succeeds. -/
lemma extractFeatures?_isSome (lm : List (ℝ × ℝ)) (h : 20 ≤ lm.length) :
    (extractFeatures? lm).isSome := by
  obtain ⟨p1, h1⟩ := getPoint_isSome lm 61 0 (by omega)
  obtain ⟨p2, h2⟩ := getPoint_isSome lm 291 1 (by omega)
  obtain ⟨p3, h3⟩ := getPoint_isSome lm 13 2 (by omega)
  obtain ⟨p4, h4⟩ := getPoint_isSome lm 14 3 (by omega)
  obtain ⟨p5, h5⟩ := getPoint_isSome lm 0 4 (by omega)
  obtain ⟨p6, h6⟩ := getPoint_isSome lm 159 5 (by omega)
  obtain ⟨p7, h7⟩ := getPoint_isSome lm 386 6 (by omega)
  obtain ⟨p8, h8⟩ := getPoint_isSome lm 159 7 (by omega)
  obtain ⟨p9, h9⟩ := getPoint_isSome lm 145 8 (by omega)
  obtain ⟨p10, h10⟩ := getPoint_isSome lm 386 9 (by omega)
  obtain ⟨p11, h11⟩ := getPoint_isSome lm 374 10 (by omega)
  obtain ⟨p12, h12⟩ := getPoint_isSome lm 65 11 (by omega)
  obtain ⟨p13, h13⟩ := getPoint_isSome lm 105 12 (by omega)
  obtain ⟨p14, h14⟩ := getPoint_isSome lm 295 13 (by omega)
  obtain ⟨p15, h15⟩ := getPoint_isSome lm 334 14 (by omega)
  simp only [extractFeatures?, h1, h2, h3, h4, h5, h6, h7, h8, h9, h10, h11, h12, h13, h14, h15]
  rfl

/-! ## Claims -/

/-- C1: for every landmark set of length at least 20 and every per-label
jitter draw in the interval the source draws from, the distribution returned
by `calculateEmotionsFromLandmarks` has every value nonnegative and its five
values sum to 1 within `1e-6`. -/
theorem calculateEmotions_valid_distribution (lm : List (ℝ × ℝ)) (jitter : Label → ℝ)
    (hlen : 20 ≤ lm.length)
    (hj : ∀ l, -(1/40) ≤ jitter l ∧ jitter l < 1/40) :
    (∀ l, 0 ≤ (calculateEmotionsFromLandmarks (some lm) jitter).get l) ∧
    |(calculateEmotionsFromLandmarks (some lm) jitter).total - 1| ≤ 1/1000000 := by
  obtain ⟨f, hf⟩ := Option.isSome_iff_exists.mp (extractFeatures?_isSome lm hlen)
  have hcalc : calculateEmotionsFromLandmarks (some lm) jitter = scoreFromFeatures f jitter := by
    simp only [calculateEmotionsFromLandmarks]
    rw [if_neg (by omega), hf]
  rw [hcalc]
  obtain ⟨hpos, htot⟩ := scoreFromFeatures_props f jitter (hj .sad).1
  exact ⟨hpos, by rw [htot]; norm_num⟩

/-- Zero jitter, inside the source's jitter interval. -/
def jitter0R : Label → ℝ := fun _ => 0

/-- Twenty coincident landmark points. -/
def lm20 : List (ℝ × ℝ) := List.replicate 20 (0, 0)

/-- Witness for C1 at a concrete landmark set and zero jitter. -/
theorem calculateEmotions_valid_distribution_witness :
    0 ≤ (calculateEmotionsFromLandmarks (some lm20) jitter0R).get .happy ∧
    |(calculateEmotionsFromLandmarks (some lm20) jitter0R).total - 1| ≤ 1/1000000 := by
  have h := calculateEmotions_valid_distribution lm20 jitter0R
    (by simp [lm20]) (by intro l; constructor <;> norm_num [jitter0R])
  exact ⟨h.1 .happy, h.2⟩

/-- C3 (amended): for every emotion distribution, the dominant mood computed
by `Object.keys(emotions).reduce((a, b) => emotions[a] > emotions[b] ? a : b)`
is an argmax of the distribution over the canonical label order, with ties
broken in favour of the LATEST label in that order (the fold keeps the
incumbent only on a strict win): every label scores at most the dominant one,
and every label strictly later in the canonical order scores strictly less. -/
theorem dominantEmotion_is_latest_argmax {α : Type} [LinearOrderedField α] (e : Emotions α) :
    (∀ l, e.get l ≤ e.get (dominantEmotion e)) ∧
    (∀ l, labelIdx (dominantEmotion e) < labelIdx l →
      e.get l < e.get (dominantEmotion e)) := by
  unfold dominantEmotion dominantStep
  split_ifs with h1 h2 h3 h4 h5 h6 h7 h8 h9 h10 h11 h12 h13 h14 <;>
    constructor <;> intro l <;> cases l <;>
    simp_all [Emotions.get, labelIdx, not_lt] <;> linarith

/-- `Math.random()` draws that make the fallback profile tie:
`neutral = 0.3 + 0.5·0.2 = 0.4 = happy = 0.4 + 0·0.3`. -/
def tieR : Label → ℚ := fun l => match l with
  | .neutral => 1/2
  | _ => 0

/-- A distribution actually produced by a fallback detection cycle (time
30000 ms, so `cyclePosition = 0`, with the draws `tieR`, all inside `[0,1)`). -/
def tieEmotions : Emotions ℚ := fallbackEmotions 30000 tieR

/-- C3 counterexample: in this reachable fallback cycle `neutral` and `happy`
tie for the maximum, so the argmax with earliest-label tie-break is `neutral`
— but the code selects `happy`.  The claimed earliest tie-break is false. -/
theorem dominantEmotion_tie_counterexample :
    tieEmotions.get .happy ≤ tieEmotions.get .neutral ∧
    tieEmotions.get .sad ≤ tieEmotions.get .neutral ∧
    tieEmotions.get .angry ≤ tieEmotions.get .neutral ∧
    tieEmotions.get .surprised ≤ tieEmotions.get .neutral ∧
    dominantEmotion tieEmotions = .happy := by
  refine ⟨?_, ?_, ?_, ?_, ?_⟩ <;>
    norm_num [tieEmotions, fallbackEmotions, getRandomEmotions, happyBiasedProfile,
      neutralBiasedProfile, mixedProfile, normalizeEmotions, Emotions.total, Emotions.get,
      tieR, dominantEmotion, dominantStep]

/-- A tie-free concrete distribution for the witness. -/
def eW : Emotions ℚ := { neutral := 1, happy := 5, sad := 2, angry := 3, surprised := 4 }

/-- Witness for the amended C3 theorem at a concrete distribution. -/
theorem dominantEmotion_is_latest_argmax_witness :
    eW.get .neutral ≤ eW.get (dominantEmotion eW) ∧
    eW.get .sad < eW.get (dominantEmotion eW) := by
  refine ⟨(dominantEmotion_is_latest_argmax eW).1 .neutral,
    (dominantEmotion_is_latest_argmax eW).2 .sad ?_⟩
  norm_num [eW, dominantEmotion, dominantStep, Emotions.get, labelIdx]

/-- C4: a missing landmark set, or one with fewer than 20 points, yields
exactly the fixed default distribution `{neutral 0.17, happy 0.50, sad 0.10,
angry 0.08, surprised 0.15}`, independent of the jitter draws (no jitter or
normalization is applied); and for every landmark set of length at least 20
the metric extraction completes with a full feature vector (the low-index
fallback substitutions never fail). -/
theorem default_for_short_landmarks_and_extraction_total :
    (∀ jitter : Label → ℝ, calculateEmotionsFromLandmarks none jitter =
      { neutral := 17/100, happy := 50/100, sad := 10/100, angry := 8/100,
        surprised := 15/100 }) ∧
    (∀ (lm : List (ℝ × ℝ)) (jitter : Label → ℝ), lm.length < 20 →
      calculateEmotionsFromLandmarks (some lm) jitter =
      { neutral := 17/100, happy := 50/100, sad := 10/100, angry := 8/100,
        surprised := 15/100 }) ∧
    (∀ lm : List (ℝ × ℝ), 20 ≤ lm.length → (extractFeatures? lm).isSome) := by
  refine ⟨fun _ => rfl, fun lm jitter h => ?_, extractFeatures?_isSome⟩
  simp only [calculateEmotionsFromLandmarks, if_pos h]
  rfl

/-- A landmark set with a single point. -/
def lmShort : List (ℝ × ℝ) := [(0, 0)]

/-- Witness for C4 at concrete inputs. -/
theorem default_for_short_landmarks_and_extraction_total_witness :
    calculateEmotionsFromLandmarks (some lmShort) jitter0R =
      { neutral := 17/100, happy := 50/100, sad := 10/100, angry := 8/100,
        surprised := 15/100 } ∧
    (extractFeatures? lm20).isSome :=
  ⟨default_for_short_landmarks_and_extraction_total.2.1 lmShort jitter0R (by simp [lmShort]),
   default_for_short_landmarks_and_extraction_total.2.2 lm20 (by simp [lm20])⟩

/-- C9: `calculateEmotionsFromLandmarks` never lets an error escape — in the
embedding the metric stage returns `none` exactly where the source would
throw (reading a coordinate of an unresolved point), and the `catch` branch
turns that into the fixed default distribution.  All other stages (scoring,
jitter, normalization) are total arithmetic. -/
theorem calculateEmotions_catch_returns_default (lm : List (ℝ × ℝ)) (jitter : Label → ℝ)
    (h : extractFeatures? lm = none) :
    calculateEmotionsFromLandmarks (some lm) jitter =
      { neutral := 17/100, happy := 50/100, sad := 10/100, angry := 8/100,
        surprised := 15/100 } := by
  simp only [calculateEmotionsFromLandmarks]
  split_ifs with hlen
  · rfl
  · rw [h]
    rfl

/-- Witness for C9 at the empty landmark set, where the mouth points cannot
resolve. -/
theorem calculateEmotions_catch_returns_default_witness :
    calculateEmotionsFromLandmarks (some ([] : List (ℝ × ℝ))) jitter0R =
      { neutral := 17/100, happy := 50/100, sad := 10/100, angry := 8/100,
        surprised := 15/100 } :=
  calculateEmotions_catch_returns_default [] jitter0R rfl

/-- Projection of the three mouth measurements from a feature vector. -/
def mouthTriple (f : Features ℝ) : ℝ × ℝ × ℝ := (f.mouthWidth, f.mouthHeight, f.mouthRatio)

/-- Square roots of explicit perfect squares. -/
lemma sqrt_eval (a b : ℝ) (hb : 0 ≤ b) (h : a = b ^ 2) : Real.sqrt a = b := by
  rw [h]; exact Real.sqrt_sq hb

/-- C5 (amended): whenever the fifteen consulted landmark points resolve, the
extracted `mouthWidth` and `mouthHeight` are the Euclidean distances between
the mouth-corner points and between the lip points, and `mouthRatio` is
`mouthWidth` divided by `mouthHeight` when the height is nonzero and by `1`
only when the height is exactly zero (the JS `|| 1` fallback) — not by
`max(mouthHeight, 1)` as claimed. -/
theorem mouthRatio_formula (lm : List (ℝ × ℝ))
    (pl pr pu pd p5 p6 p7 p8 p9 p10 p11 p12 p13 p14 p15 : ℝ × ℝ)
    (h1 : getPoint lm 61 0 = some pl) (h2 : getPoint lm 291 1 = some pr)
    (h3 : getPoint lm 13 2 = some pu) (h4 : getPoint lm 14 3 = some pd)
    (h5 : getPoint lm 0 4 = some p5) (h6 : getPoint lm 159 5 = some p6)
    (h7 : getPoint lm 386 6 = some p7) (h8 : getPoint lm 159 7 = some p8)
    (h9 : getPoint lm 145 8 = some p9) (h10 : getPoint lm 386 9 = some p10)
    (h11 : getPoint lm 374 10 = some p11) (h12 : getPoint lm 65 11 = some p12)
    (h13 : getPoint lm 105 12 = some p13) (h14 : getPoint lm 295 13 = some p14)
    (h15 : getPoint lm 334 14 = some p15) :
    (extractFeatures? lm).map mouthTriple =
      some (euclid pl pr, euclid pu pd,
        euclid pl pr / (if euclid pu pd = 0 then 1 else euclid pu pd)) := by
  simp only [extractFeatures?, h1, h2, h3, h4, h5, h6, h7, h8, h9, h10, h11, h12, h13, h14, h15]
  rfl

/-- A 20-point landmark set whose mouth corners are distance 5 apart and
whose lips (indices 13 and 14, both present) are distance `1/2` apart. -/
noncomputable def lmRatio : List (ℝ × ℝ) :=
  [(0, 0), (3, 4), (0, 0), (0, 0), (0, 0), (0, 0), (0, 0), (0, 0), (0, 0), (0, 0),
   (0, 0), (0, 0), (0, 0), (0, 0), (0, 1/2), (0, 0), (0, 0), (0, 0), (0, 0), (0, 0)]

lemma euclid_34 : euclid (0, 0) (3, 4) = 5 := by
  unfold euclid
  exact sqrt_eval _ _ (by norm_num) (by norm_num)

lemma euclid_half : euclid (0, 0) (0, 1/2) = 1/2 := by
  unfold euclid
  exact sqrt_eval _ _ (by norm_num) (by norm_num)

/-- C5 counterexample: on `lmRatio` the code computes
`mouthRatio = 5 / 0.5 = 10`, while the claimed formula
`mouthWidth / max(mouthHeight, 1)` gives `5 / 1 = 5`. -/
theorem mouthRatio_counterexample :
    (extractFeatures? lmRatio).map mouthTriple = some (5, 1/2, 10) ∧
    (5 : ℝ) / max (1/2 : ℝ) 1 = 5 ∧ (10 : ℝ) ≠ (5 : ℝ) / max (1/2 : ℝ) 1 := by
  have g1 : getPoint lmRatio 61 0 = some (0, 0) := rfl
  have g2 : getPoint lmRatio 291 1 = some (3, 4) := rfl
  have g3 : getPoint lmRatio 13 2 = some (0, 0) := rfl
  have g4 : getPoint lmRatio 14 3 = some (0, 1/2) := rfl
  have g5 : getPoint lmRatio 0 4 = some (0, 0) := rfl
  have g6 : getPoint lmRatio 159 5 = some (0, 0) := rfl
  have g7 : getPoint lmRatio 386 6 = some (0, 0) := rfl
  have g8 : getPoint lmRatio 159 7 = some (0, 0) := rfl
  have g9 : getPoint lmRatio 145 8 = some (0, 0) := rfl
  have g10 : getPoint lmRatio 386 9 = some (0, 0) := rfl
  have g11 : getPoint lmRatio 374 10 = some (0, 0) := rfl
  have g12 : getPoint lmRatio 65 11 = some (0, 0) := rfl
  have g13 : getPoint lmRatio 105 12 = some (0, 0) := rfl
  have g14 : getPoint lmRatio 295 13 = some (0, 0) := rfl
  have g15 : getPoint lmRatio 334 14 = some (0, 1/2) := rfl
  have hmap : (extractFeatures? lmRatio).map mouthTriple =
      some (euclid (0, 0) (3, 4), euclid (0, 0) (0, 1/2),
        euclid (0, 0) (3, 4) /
          (if euclid (0, 0) (0, 1/2) = 0 then 1 else euclid (0, 0) (0, 1/2))) := by
    simp only [extractFeatures?, g1, g2, g3, g4, g5, g6, g7, g8, g9, g10, g11, g12, g13, g14, g15]
    rfl
  rw [euclid_34, euclid_half] at hmap
  refine ⟨?_, by norm_num, by norm_num⟩
  rw [hmap]
  norm_num

/-- Witness for the amended C5 theorem at the concrete landmark set. -/
theorem mouthRatio_formula_witness :
    (extractFeatures? lmRatio).map mouthTriple =
      some (euclid (0, 0) (3, 4), euclid (0, 0) (0, 1/2),
        euclid (0, 0) (3, 4) /
          (if euclid (0, 0) (0, 1/2) = 0 then 1 else euclid (0, 0) (0, 1/2))) :=
  mouthRatio_formula lmRatio (0, 0) (3, 4) (0, 0) (0, 1/2) (0, 0) (0, 0) (0, 0) (0, 0)
    (0, 0) (0, 0) (0, 0) (0, 0) (0, 0) (0, 0) (0, 1/2)
    rfl rfl rfl rfl rfl rfl rfl rfl rfl rfl rfl rfl rfl rfl rfl

set_option maxHeartbeats 2000000 in
/-- C7: for every `nowMillis` and draws in `[0,1)`, the fallback simulator's
cycle position `(nowMillis mod 30000) / 30000` lies in `[0,1)`; the
happy-biased profile is selected on `[0, 0.3)`, the neutral-biased profile on
`[0.3, 0.6)` and the mixed profile on `[0.6, 1)`; each profile's label values
lie in its documented range pre-normalization; and the normalized output is
nonnegative with total exactly 1. -/
theorem fallback_simulator_props (nowMillis : ℕ) (r : Label → ℚ)
    (hr : ∀ l, 0 ≤ r l ∧ r l < 1) :
    (0 ≤ ((nowMillis % 30000 : ℕ) : ℚ) / 30000 ∧
      ((nowMillis % 30000 : ℕ) : ℚ) / 30000 < 1) ∧
    (((nowMillis % 30000 : ℕ) : ℚ) / 30000 < 3/10 →
      fallbackEmotions nowMillis r = normalizeEmotions (happyBiasedProfile r)) ∧
    (3/10 ≤ ((nowMillis % 30000 : ℕ) : ℚ) / 30000 →
      ((nowMillis % 30000 : ℕ) : ℚ) / 30000 < 6/10 →
      fallbackEmotions nowMillis r = normalizeEmotions (neutralBiasedProfile r)) ∧
    (6/10 ≤ ((nowMillis % 30000 : ℕ) : ℚ) / 30000 →
      fallbackEmotions nowMillis r = normalizeEmotions (mixedProfile r)) ∧
    (3/10 ≤ (happyBiasedProfile r).neutral ∧ (happyBiasedProfile r).neutral < 5/10 ∧
     4/10 ≤ (happyBiasedProfile r).happy ∧ (happyBiasedProfile r).happy < 7/10 ∧
     0 ≤ (happyBiasedProfile r).sad ∧ (happyBiasedProfile r).sad < 2/10 ∧
     0 ≤ (happyBiasedProfile r).angry ∧ (happyBiasedProfile r).angry < 1/10 ∧
     0 ≤ (happyBiasedProfile r).surprised ∧ (happyBiasedProfile r).surprised < 1/10) ∧
    (6/10 ≤ (neutralBiasedProfile r).neutral ∧ (neutralBiasedProfile r).neutral < 8/10 ∧
     1/10 ≤ (neutralBiasedProfile r).happy ∧ (neutralBiasedProfile r).happy < 3/10 ∧
     1/10 ≤ (neutralBiasedProfile r).sad ∧ (neutralBiasedProfile r).sad < 2/10 ∧
     0 ≤ (neutralBiasedProfile r).angry ∧ (neutralBiasedProfile r).angry < 1/10 ∧
     0 ≤ (neutralBiasedProfile r).surprised ∧ (neutralBiasedProfile r).surprised < 1/10) ∧
    (3/10 ≤ (mixedProfile r).neutral ∧ (mixedProfile r).neutral < 6/10 ∧
     1/10 ≤ (mixedProfile r).happy ∧ (mixedProfile r).happy < 4/10 ∧
     1/10 ≤ (mixedProfile r).sad ∧ (mixedProfile r).sad < 4/10 ∧
     5/100 ≤ (mixedProfile r).angry ∧ (mixedProfile r).angry < 2/10 ∧
     5/100 ≤ (mixedProfile r).surprised ∧ (mixedProfile r).surprised < 2/10) ∧
    (∀ l, 0 ≤ (fallbackEmotions nowMillis r).get l) ∧
    (fallbackEmotions nowMillis r).total = 1 := by
  obtain ⟨hn0, hn1⟩ := hr .neutral
  obtain ⟨hh0, hh1⟩ := hr .happy
  obtain ⟨hs0, hs1⟩ := hr .sad
  obtain ⟨ha0, ha1⟩ := hr .angry
  obtain ⟨hu0, hu1⟩ := hr .surprised
  have hcp0 : 0 ≤ ((nowMillis % 30000 : ℕ) : ℚ) / 30000 :=
    div_nonneg (Nat.cast_nonneg _) (by norm_num)
  have hcp1 : ((nowMillis % 30000 : ℕ) : ℚ) / 30000 < 1 := by
    rw [div_lt_one (by norm_num)]
    exact_mod_cast Nat.mod_lt _ (by norm_num)
  have hsel1 : ((nowMillis % 30000 : ℕ) : ℚ) / 30000 < 3/10 →
      fallbackEmotions nowMillis r = normalizeEmotions (happyBiasedProfile r) := by
    intro h
    unfold fallbackEmotions getRandomEmotions
    rw [if_pos h]
  have hsel2 : 3/10 ≤ ((nowMillis % 30000 : ℕ) : ℚ) / 30000 →
      ((nowMillis % 30000 : ℕ) : ℚ) / 30000 < 6/10 →
      fallbackEmotions nowMillis r = normalizeEmotions (neutralBiasedProfile r) := by
    intro h1 h2
    unfold fallbackEmotions getRandomEmotions
    rw [if_neg (not_lt.mpr h1), if_pos h2]
  have hsel3 : 6/10 ≤ ((nowMillis % 30000 : ℕ) : ℚ) / 30000 →
      fallbackEmotions nowMillis r = normalizeEmotions (mixedProfile r) := by
    intro h1
    unfold fallbackEmotions getRandomEmotions
    rw [if_neg (not_lt.mpr (le_trans (by norm_num) h1)), if_neg (not_lt.mpr h1)]
  have hbH : 3/10 ≤ (happyBiasedProfile r).neutral ∧ (happyBiasedProfile r).neutral < 5/10 ∧
      4/10 ≤ (happyBiasedProfile r).happy ∧ (happyBiasedProfile r).happy < 7/10 ∧
      0 ≤ (happyBiasedProfile r).sad ∧ (happyBiasedProfile r).sad < 2/10 ∧
      0 ≤ (happyBiasedProfile r).angry ∧ (happyBiasedProfile r).angry < 1/10 ∧
      0 ≤ (happyBiasedProfile r).surprised ∧ (happyBiasedProfile r).surprised < 1/10 := by
    refine ⟨?_, ?_, ?_, ?_, ?_, ?_, ?_, ?_, ?_, ?_⟩ <;>
      simp only [happyBiasedProfile] <;> linarith
  have hbN : 6/10 ≤ (neutralBiasedProfile r).neutral ∧ (neutralBiasedProfile r).neutral < 8/10 ∧
      1/10 ≤ (neutralBiasedProfile r).happy ∧ (neutralBiasedProfile r).happy < 3/10 ∧
      1/10 ≤ (neutralBiasedProfile r).sad ∧ (neutralBiasedProfile r).sad < 2/10 ∧
      0 ≤ (neutralBiasedProfile r).angry ∧ (neutralBiasedProfile r).angry < 1/10 ∧
      0 ≤ (neutralBiasedProfile r).surprised ∧ (neutralBiasedProfile r).surprised < 1/10 := by
    refine ⟨?_, ?_, ?_, ?_, ?_, ?_, ?_, ?_, ?_, ?_⟩ <;>
      simp only [neutralBiasedProfile] <;> linarith
  have hbM : 3/10 ≤ (mixedProfile r).neutral ∧ (mixedProfile r).neutral < 6/10 ∧
      1/10 ≤ (mixedProfile r).happy ∧ (mixedProfile r).happy < 4/10 ∧
      1/10 ≤ (mixedProfile r).sad ∧ (mixedProfile r).sad < 4/10 ∧
      5/100 ≤ (mixedProfile r).angry ∧ (mixedProfile r).angry < 2/10 ∧
      5/100 ≤ (mixedProfile r).surprised ∧ (mixedProfile r).surprised < 2/10 := by
    refine ⟨?_, ?_, ?_, ?_, ?_, ?_, ?_, ?_, ?_, ?_⟩ <;>
      simp only [mixedProfile] <;> linarith
  have hval : (∀ l, 0 ≤ (fallbackEmotions nowMillis r).get l) ∧
      (fallbackEmotions nowMillis r).total = 1 := by
    rcases lt_or_le (((nowMillis % 30000 : ℕ) : ℚ) / 30000) (3/10) with hc | hc
    · rw [hsel1 hc]
      refine normalizeEmotions_props _ (fun l => ?_) ?_
      · cases l <;> simp only [Emotions.get, happyBiasedProfile] <;> linarith
      · simp only [Emotions.total, happyBiasedProfile]; linarith
    · rcases lt_or_le (((nowMillis % 30000 : ℕ) : ℚ) / 30000) (6/10) with hc2 | hc2
      · rw [hsel2 hc hc2]
        refine normalizeEmotions_props _ (fun l => ?_) ?_
        · cases l <;> simp only [Emotions.get, neutralBiasedProfile] <;> linarith
        · simp only [Emotions.total, neutralBiasedProfile]; linarith
      · rw [hsel3 hc2]
        refine normalizeEmotions_props _ (fun l => ?_) ?_
        · cases l <;> simp only [Emotions.get, mixedProfile] <;> linarith
        · simp only [Emotions.total, mixedProfile]; linarith
  exact ⟨⟨hcp0, hcp1⟩, hsel1, hsel2, hsel3, hbH, hbN, hbM, hval.1, hval.2⟩

/-- Uniform draws of one half. -/
def rHalf : Label → ℚ := fun _ => 1/2

/-- Witness for C7 at time 0 (cycle position 0, happy-biased branch). -/
theorem fallback_simulator_props_witness :
    fallbackEmotions 0 rHalf = normalizeEmotions (happyBiasedProfile rHalf) ∧
    (fallbackEmotions 0 rHalf).total = 1 := by
  have h := fallback_simulator_props 0 rHalf (fun l => by norm_num [rHalf])
  exact ⟨h.2.1 (by norm_num), h.2.2.2.2.2.2.2.2⟩

/-- C2 (code bug evidence): a tick arriving while a cycle is already in
flight (`isDetecting = true`) is NOT skipped — the guard at the top of
`runDetection` checks only the video element, never `isDetecting`, so the
tick launches a second concurrent cycle. -/
theorem runDetection_ignores_busy_flag :
    tickGuardPasses readyVideo = true ∧
    runDetectionTick readyVideo { isDetecting := true, inFlightCycles := 1 } =
      { isDetecting := true, inFlightCycles := 2 } ∧
    runDetectionTick readyVideo { isDetecting := true, inFlightCycles := 1 } ≠
      { isDetecting := true, inFlightCycles := 1 } := by
  decide

/-- C6 (code bug evidence): the timeout guard `if (!script.onload)` is always
false (the handler was assigned at creation), so a script that never fires
`onload`/`onerror` leaves the promise pending forever instead of rejecting
after 10 seconds, and a load completing long after 10 seconds still resolves. -/
theorem loadScript_timeout_never_fires :
    timeoutRejects = false ∧
    loadScriptOutcome none none = .pending ∧
    loadScriptOutcome (some 999999) none = .resolved := by
  decide

/-- The sort built by `getMoodHistory` is newest-first. -/
lemma getMoodHistory_sorted (store : List MoodRecord) :
    List.Sorted tsDesc (getMoodHistory store) :=
  List.Pairwise.sublist (List.take_sublist _ _) (List.sorted_insertionSort tsDesc store)

/-- `limit(20)` caps the history length. -/
lemma getMoodHistory_len (store : List MoodRecord) : (getMoodHistory store).length ≤ 20 := by
  simp only [getMoodHistory, List.length_take]
  exact min_le_left _ _

/-- A record strictly newer than everything already stored sorts to the
front of the history. -/
lemma history_head_of_strict_newest (store : List MoodRecord) (x : MoodRecord)
    (h : ∀ y ∈ store, y.timestamp < x.timestamp) :
    (getMoodHistory (store ++ [x])).head? = some x := by
  have hmem : x ∈ List.insertionSort tsDesc (store ++ [x]) := by
    rw [List.mem_insertionSort]; simp
  have hsorted := List.sorted_insertionSort tsDesc (store ++ [x])
  cases hsort : List.insertionSort tsDesc (store ++ [x]) with
  | nil => rw [hsort] at hmem; cases hmem
  | cons hd tl =>
    have hd_mem : hd ∈ store ++ [x] := by
      have hh : hd ∈ List.insertionSort tsDesc (store ++ [x]) := by
        rw [hsort]; exact List.mem_cons_self _ _
      rwa [List.mem_insertionSort] at hh
    rcases List.mem_append.mp hd_mem with hin | hin
    · exfalso
      have hlt : hd.timestamp < x.timestamp := h hd hin
      rw [hsort] at hmem hsorted
      rcases List.mem_cons.mp hmem with heq | htl
      · rw [heq] at hlt; exact lt_irrefl _ hlt
      · have hle : tsDesc hd x := (List.pairwise_cons.mp hsorted).1 _ htl
        exact absurd hlt (not_lt.mpr hle)
    · have heq : hd = x := by simpa using hin
      subst heq
      simp [getMoodHistory, hsort]

/-- C8 (amended): a POST through `addMoodLog` answers 200 with the stored
record; the next `getMoodHistory` is newest-first sorted and has at most 20
entries; and the saved record appears at index 0 PROVIDED its timestamp is
strictly greater than that of every already-stored record (with a
client-supplied older timestamp the saved record sorts further back). -/
theorem moodLog_roundtrip (store : List MoodRecord) (mood : String) (ts? : Option ℕ)
    (now : ℕ) :
    (addMoodLog store mood ts? now).1 = 200 ∧
    (getMoodHistory (addMoodLog store mood ts? now).2.2).length ≤ 20 ∧
    List.Sorted tsDesc (getMoodHistory (addMoodLog store mood ts? now).2.2) ∧
    ((∀ x ∈ store, x.timestamp < (addMoodLog store mood ts? now).2.1.timestamp) →
      (getMoodHistory (addMoodLog store mood ts? now).2.2).head? =
        some (addMoodLog store mood ts? now).2.1) :=
  ⟨rfl, getMoodHistory_len _, getMoodHistory_sorted _,
    fun h => history_head_of_strict_newest store _ h⟩

/-- A store holding one record with timestamp 100. -/
def cxStore : List MoodRecord := [{ rid := 0, mood := "sad", timestamp := 100 }]

/-- C8 counterexample: posting a record with client-supplied timestamp 50
into a store already holding timestamp 100 returns 200, but the next history
read does NOT have the just-saved record at index 0. -/
theorem moodLog_counterexample :
    (addMoodLog cxStore "happy" (some 50) 200).1 = 200 ∧
    (getMoodHistory (addMoodLog cxStore "happy" (some 50) 200).2.2).head? ≠
      some (addMoodLog cxStore "happy" (some 50) 200).2.1 := by
  decide

/-- Witness for the amended C8 theorem: saving into an empty store. -/
theorem moodLog_roundtrip_witness :
    (getMoodHistory (addMoodLog [] "happy" none 5).2.2).head? =
      some (addMoodLog [] "happy" none 5).2.1 ∧
    (getMoodHistory (addMoodLog [] "happy" none 5).2.2).length ≤ 20 := by
  have h := moodLog_roundtrip [] "happy" none 5
  exact ⟨h.2.2.2 (by simp), h.2.1⟩

/-- C10: with no detected mood (`mood` is the empty string, which is falsy),
`handleSaveMood` returns immediately: no POST request is issued and the
component state is left unchanged. -/
theorem handleSaveMood_noop_on_empty_mood (s : MoodFormState) (nowIso : String)
    (h : s.mood = "") :
    handleSaveMood s nowIso = (s, none) := by
  simp [handleSaveMood, h]

/-- A component state with no detected mood. -/
def emptyMoodForm : MoodFormState := { mood := "", notes := "draft", historyLen := 3 }

/-- Witness for C10 at a concrete state. -/
theorem handleSaveMood_noop_on_empty_mood_witness :
    handleSaveMood emptyMoodForm "2026-10-11T00:00:00Z" = (emptyMoodForm, none) :=
  handleSaveMood_noop_on_empty_mood emptyMoodForm "2026-10-11T00:00:00Z" rfl

end MoodTracker
